import Mathlib

/-!
Shallow embedding of the musicpd-rs protocol engine.

Wire bytes are modelled as `List Nat` (one entry per byte). The nom 2.x
combinator results are modelled by `PResult`: `done rest val` for
`IResult::Done`, `error` for `IResult::Error` (the error kind payload is not
modelled, no claim inspects it), `incomplete` for `IResult::Incomplete`
(the `Needed` payload is likewise dropped), and `panicked` for a Rust panic
unwinding out of a parser (the source can panic inside `parse_bytes` via
`str::from_utf8(..).unwrap()`).

Rust `String` payloads are modelled as byte lists, `f32` values as exact
rationals (rounding to binary floating point is not modelled; every value a
claim evaluates is exactly representable), and `std::time::Duration` as a
seconds/nanoseconds pair.
-/

namespace Mpd

/-- Result of running an embedded nom parser on a byte list. -/
inductive PResult (α : Type) : Type where
  | done (rest : List Nat) (val : α)
  | error
  | incomplete
  | panicked
deriving DecidableEq

/-- Result of an embedded Rust computation that may return `Err` or panic. -/
inductive RustRes (α : Type) : Type where
  | ok (val : α)
  | err
  | panicked
deriving DecidableEq

/-- Map over the `ok` case, mirroring `Result::map`. -/
def RustRes.map {α β : Type} (f : α → β) : RustRes α → RustRes β
  | .ok a => .ok (f a)
  | .err => .err
  | .panicked => .panicked

/-- Ascii digit test on a byte. -/
def isDigitByte (b : Nat) : Bool := 48 ≤ b && b ≤ 57

/-- Longest prefix of bytes satisfying `p`, together with the rest. -/
def spanBytes (p : Nat → Bool) : List Nat → List Nat × List Nat
  | [] => ([], [])
  | b :: bs =>
    if p b then
      let (t, r) := spanBytes p bs
      (b :: t, r)
    else ([], b :: bs)

/-- Utf8 continuation byte test. -/
def isCont (b : Nat) : Bool := 128 ≤ b && b ≤ 191

/-- One step of the utf8 validation automaton used by `str::from_utf8`:
the state holds how many continuation bytes are still expected and the
allowed range for the next byte (the first continuation byte of a longer
sequence has a narrowed range, rejecting overlong encodings, surrogates
and values above the last code point). -/
def utf8Step : Nat × Nat × Nat → Nat → Option (Nat × Nat × Nat)
  | (0, _, _), b =>
    if b ≤ 127 then some (0, 0, 0)
    else if 194 ≤ b && b ≤ 223 then some (1, 128, 191)
    else if b = 224 then some (2, 160, 191)
    else if 225 ≤ b && b ≤ 236 then some (2, 128, 191)
    else if b = 237 then some (2, 128, 159)
    else if 238 ≤ b && b ≤ 239 then some (2, 128, 191)
    else if b = 240 then some (3, 144, 191)
    else if 241 ≤ b && b ≤ 243 then some (3, 128, 191)
    else if b = 244 then some (3, 128, 143)
    else none
  | (k + 1, lo, hi), b =>
    if lo ≤ b && b ≤ hi then some (k, 128, 191) else none

/-- Run the utf8 automaton over a byte list from a given state. Written
with the primitive list recursor so that concrete evaluation stays linear. -/
def utf8Run (l : List Nat) : Nat × Nat × Nat → Bool :=
  List.rec (motive := fun _ => Nat × Nat × Nat → Bool)
    (fun s => s.1 == 0)
    (fun b _ ih s =>
      match utf8Step s b with
      | some s2 => ih s2
      | none => false)
    l

/-- Utf8 validity of a byte list, the check performed by `str::from_utf8`. -/
def utf8Valid (l : List Nat) : Bool := utf8Run l (0, 0, 0)

/-- Length of a byte list via the primitive list recursor (identical to
`List.length`; this form keeps concrete kernel evaluation linear). -/
def byteLen (l : List Nat) : Nat :=
  List.rec (motive := fun _ => Nat) 0 (fun _ _ ih => ih + 1) l

/-- Accumulating decimal value of a run of ascii digit bytes. -/
def digitsToNat (acc : Nat) : List Nat → Nat
  | [] => acc
  | b :: bs => digitsToNat (acc * 10 + (b - 48)) bs

/-- Every byte of the list is an ascii digit. -/
def allDigits : List Nat → Bool
  | [] => true
  | b :: bs => isDigitByte b && allDigits bs

/-- Rust unsigned-integer `FromStr` over the decoded bytes: an optional
leading plus sign, then one or more ascii digits, the value below `bound`
(the width of the target type). -/
def parseRustUInt (bound : Nat) (bytes : List Nat) : Option Nat :=
  let digits := match bytes with
    | 43 :: rest => rest
    | _ => bytes
  if digits ≠ [] && allDigits digits then
    let v := digitsToNat 0 digits
    if v < bound then some v else none
  else none

/-- Rust signed-integer `FromStr`: optional sign, digits, bounds check. -/
def parseRustInt (lo hi : Int) (bytes : List Nat) : Option Int :=
  let (neg, digits) : Bool × List Nat := match bytes with
    | 43 :: rest => (false, rest)
    | 45 :: rest => (true, rest)
    | _ => (false, bytes)
  if digits ≠ [] && allDigits digits then
    let v : Int := digitsToNat 0 digits
    let v := if neg then -v else v
    if lo ≤ v && v ≤ hi then some v else none
  else none

/-- Value of a Rust `f32`, with finite values kept as exact rationals. -/
inductive F32 : Type where
  | finite (val : ℚ)
  | nan
  | infinite (neg : Bool)
deriving DecidableEq

/-- Lowercase an ascii byte. -/
def lowerByte (b : Nat) : Nat := if 65 ≤ b && b ≤ 90 then b + 32 else b

/-- Decimal part of Rust `f32::from_str` after the sign: mantissa digits
with an optional fraction and exponent; at least one mantissa digit. -/
def parseF32Decimal (neg : Bool) (bytes : List Nat) : Option F32 :=
  let (intPart, r1) := spanBytes isDigitByte bytes
  let (fracPart, r2) : List Nat × List Nat := match r1 with
    | 46 :: r => spanBytes isDigitByte r
    | _ => ([], r1)
  if intPart = [] && fracPart = [] then none
  else
    let mantNum : Nat := digitsToNat 0 intPart * 10 ^ fracPart.length + digitsToNat 0 fracPart
    let mantDen : Nat := 10 ^ fracPart.length
    let expDigits : Option (Bool × List Nat) := match r2 with
      | 101 :: 43 :: r => some (false, r)
      | 101 :: 45 :: r => some (true, r)
      | 101 :: r => some (false, r)
      | 69 :: 43 :: r => some (false, r)
      | 69 :: 45 :: r => some (true, r)
      | 69 :: r => some (false, r)
      | [] => none
      | _ => none
    match r2, expDigits with
    | [], _ =>
      some (.finite (mkRat (if neg then -(mantNum : Int) else (mantNum : Int)) mantDen))
    | _ :: _, some (eneg, ds) =>
      if ds ≠ [] && allDigits ds then
        let e := digitsToNat 0 ds
        let num : Nat := if eneg then mantNum else mantNum * 10 ^ e
        let den : Nat := if eneg then mantDen * 10 ^ e else mantDen
        some (.finite (mkRat (if neg then -(num : Int) else (num : Int)) den))
      else none
    | _ :: _, none => none

/-- Rust `f32::from_str` over the decoded bytes, with finite results kept
exact (binary rounding is not modelled). -/
def parseRustF32 (bytes : List Nat) : Option F32 :=
  let (neg, rest) : Bool × List Nat := match bytes with
    | 43 :: r => (false, r)
    | 45 :: r => (true, r)
    | _ => (false, bytes)
  let low := rest.map lowerByte
  if low = [105, 110, 102] || low = [105, 110, 102, 105, 110, 105, 116, 121] then
    some (.infinite neg)
  else if low = [110, 97, 110] then some .nan
  else parseF32Decimal neg rest

/-- Embedding of `util::parse_bytes`: `str::from_utf8(bytes).unwrap()`
panics on invalid utf8, then the `FromStr` instance runs on the string. -/
def parse_bytes {α : Type} (fromStr : List Nat → Option α) (bytes : List Nat) : RustRes α :=
  if utf8Valid bytes then
    match fromStr bytes with
    | some v => .ok v
    | none => .err
  else .panicked

/-- Instance of `parse_bytes` at `u8`. -/
def parseBytesU8 : List Nat → RustRes Nat := parse_bytes (parseRustUInt 256)

/-- Instance of `parse_bytes` at `u32`. -/
def parseBytesU32 : List Nat → RustRes Nat := parse_bytes (parseRustUInt 4294967296)

/-- Instance of `parse_bytes` at `u64`. -/
def parseBytesU64 : List Nat → RustRes Nat := parse_bytes (parseRustUInt 18446744073709551616)

/-- Instance of `parse_bytes` at `i64`. -/
def parseBytesI64 : List Nat → RustRes Int :=
  parse_bytes (parseRustInt (-9223372036854775808) 9223372036854775807)

/-- Instance of `parse_bytes` at `f32`. -/
def parseBytesF32 : List Nat → RustRes F32 := parse_bytes parseRustF32

/-- Embedding of nom 2.x `tag!`: the expected bytes are compared against the
input; a mismatch inside the available bytes is an error, running out of
input while still matching is incomplete. -/
def pTag : List Nat → List Nat → PResult Unit
  | [], i => .done i ()
  | _ :: _, [] => .incomplete
  | t :: ts, b :: bs => if t = b then pTag ts bs else .error

/-- Embedding of nom `not_line_ending`: consume bytes up to the first
carriage return or newline (possibly none, possibly the whole input). -/
def pNotLineEnding (i : List Nat) : PResult (List Nat) :=
  let (taken, rest) := spanBytes (fun b => !(b = 13 || b = 10)) i
  .done rest taken

/-- Embedding of nom `digit`: one or more ascii digits; a leading non-digit
is an error; an empty input yields an empty match as in the source loop. -/
def pDigit (i : List Nat) : PResult (List Nat) :=
  match i with
  | [] => .done [] []
  | b :: _ =>
    if isDigitByte b then
      let (t, r) := spanBytes isDigitByte i
      .done r t
    else .error

/-- Embedding of nom `is_not!`: one or more bytes outside `stops`. -/
def pIsNot (stops : List Nat) (i : List Nat) : PResult (List Nat) :=
  match i with
  | [] => .done [] []
  | b :: _ =>
    if stops.contains b then .error
    else
      let (t, r) := spanBytes (fun c => !(stops.contains c)) i
      .done r t

/-- Embedding of nom `line_ending`: a newline, or a carriage return pair. -/
def pLineEnding (i : List Nat) : PResult Unit :=
  match pTag [10] i with
  | .error => pTag [13, 10] i
  | r => r

/-- Sequencing of parser results, the embedding of `do_parse!` chaining and
`try_parse!`: errors, incompleteness and panics short-circuit. -/
def pBind {α β : Type} (r : PResult α) (f : List Nat → α → PResult β) : PResult β :=
  match r with
  | .done i a => f i a
  | .error => .error
  | .incomplete => .incomplete
  | .panicked => .panicked

/-- One branch of nom `alt!`: only an error falls through to the next
alternative; incomplete and panic return immediately. -/
def altB {α : Type} (r : PResult α) (next : Unit → PResult α) : PResult α :=
  match r with
  | .error => next ()
  | x => x

/-- Embedding of nom `map!` on a parser. -/
def pMapV {α β : Type} (p : List Nat → PResult α) (f : α → β) (i : List Nat) : PResult β :=
  match p i with
  | .done rest a => .done rest (f a)
  | .error => .error
  | .incomplete => .incomplete
  | .panicked => .panicked

/-- Embedding of nom `map_res!`. -/
def pMapRes {α β : Type} (p : List Nat → PResult α) (f : α → RustRes β) (i : List Nat) :
    PResult β :=
  match p i with
  | .done rest a =>
    match f a with
    | .ok b => .done rest b
    | .err => .error
    | .panicked => .panicked
  | .error => .error
  | .incomplete => .incomplete
  | .panicked => .panicked

/-- Embedding of nom `map_opt!`. -/
def pMapOpt {α β : Type} (p : List Nat → PResult α) (f : α → Option β) (i : List Nat) :
    PResult β :=
  match p i with
  | .done rest a =>
    match f a with
    | some b => .done rest b
    | none => .error
  | .error => .error
  | .incomplete => .incomplete
  | .panicked => .panicked

/-- Embedding of nom `flat_map!`: run `q` on the output bytes of `p`; the
outer remaining input is that of `p`, any leftover of `q` is dropped. -/
def pFlatMap {α : Type} (p : List Nat → PResult (List Nat)) (q : List Nat → PResult α)
    (i : List Nat) : PResult α :=
  match p i with
  | .done rest o =>
    match q o with
    | .done _ b => .done rest b
    | .error => .error
    | .incomplete => .incomplete
    | .panicked => .panicked
  | .error => .error
  | .incomplete => .incomplete
  | .panicked => .panicked

/-- Byte string for OK plus newline. -/
def okB : List Nat := [79, 75, 10]

/-- Byte string for list_OK plus newline. -/
def listOkB : List Nat := [108, 105, 115, 116, 95, 79, 75, 10]

/-- Embedding of `protocol::parse_ok`, the tag `OK` plus newline. -/
def parse_ok (i : List Nat) : PResult Unit := pTag okB i

/-- Embedding of `protocol::parse_list_ok`, the tag `list_OK` plus newline. -/
def parse_list_ok (i : List Nat) : PResult Unit := pTag listOkB i

/-- Embedding of `protocol::parse_num_bool`: a `0` or `1` digit byte. -/
def parse_num_bool (i : List Nat) : PResult Bool :=
  match pTag [48] i with
  | .done r _ => .done r false
  | .incomplete => .incomplete
  | .panicked => .panicked
  | .error =>
    match pTag [49] i with
    | .done r _ => .done r true
    | .incomplete => .incomplete
    | .panicked => .panicked
    | .error => .error

/-- The possible error types sent from mpd (`types::CmdErrorType`). -/
inductive CmdErrorType : Type where
  | notList
  | arg
  | password
  | permission
  | unknown
  | noExist
  | playlistMax
  | system
  | playlistLoad
  | updateAlready
  | playerSync
  | exist
deriving DecidableEq

/-- Embedding of `CmdErrorType::from_code`: the closed table from the ascii
code bytes (1, 2, 3, 4, 5, 50, 51, 52, 53, 54, 55, 56) to error types. -/
def CmdErrorType.from_code (code : List Nat) : Option CmdErrorType :=
  if code = [49] then some .notList
  else if code = [50] then some .arg
  else if code = [51] then some .password
  else if code = [52] then some .permission
  else if code = [53] then some .unknown
  else if code = [53, 48] then some .noExist
  else if code = [53, 49] then some .playlistMax
  else if code = [53, 50] then some .system
  else if code = [53, 51] then some .playlistLoad
  else if code = [53, 52] then some .updateAlready
  else if code = [53, 53] then some .playerSync
  else if code = [53, 54] then some .exist
  else none

/-- The error returned from the server for failed commands
(`types::CmdError`); the two strings are kept as byte lists. -/
structure CmdError : Type where
  error_type : CmdErrorType
  command_no : Nat
  command_name : List Nat
  message_text : List Nat
deriving DecidableEq

/-- Tag types supported by mpd (`types::TagType`). -/
inductive TagType : Type where
  | artist
  | artistSort
  | album
  | albumSort
  | albumArtist
  | albumArtistSort
  | title
  | track
  | name
  | genre
  | date
  | composer
  | performer
  | comment
  | disc
  | musicbrainzArtistId
  | musicbrainzAlbumId
  | musicbrainzAlbumArtistId
  | musicbrainzTrackId
  | musicbrainzReleaseTrackId
deriving DecidableEq

/-- Subsystems that can be subscribed to by `Command::Idle`. -/
inductive SubSystem : Type where
  | database
  | update
  | storedPlaylist
  | playlist
  | player
  | mixer
  | output
  | options
  | sticker
  | subscription
  | message
deriving DecidableEq

/-- A range of song positions (`types::Range`). -/
structure Range : Type where
  start : Nat
  stop : Option Nat
deriving DecidableEq

/-- Either a single value or a range (`types::SingleOrRange`). -/
inductive SingleOrRange : Type where
  | single (val : Nat)
  | range (r : Range)
deriving DecidableEq

/-- The current playback state of mpd (`types::State`). -/
inductive State : Type where
  | play
  | pause
  | stop
deriving DecidableEq

/-- The replay gain mode (`types::ReplayGainMode`). -/
inductive ReplayGainMode : Type where
  | off
  | track
  | album
  | auto
deriving DecidableEq

/-- Embedding of `std::time::Duration` as whole seconds plus nanoseconds. -/
structure Duration : Type where
  secs : Nat
  nanos : Nat
deriving DecidableEq

/-- Rust `Duration::new` normalizes nanoseconds into whole seconds. -/
def Duration.new (secs nanos : Nat) : Duration :=
  { secs := secs + nanos / 1000000000, nanos := nanos % 1000000000 }

/-- Rust `Duration::from_secs`. -/
def Duration.from_secs (s : Nat) : Duration := { secs := s, nanos := 0 }

/-- Information about what mpd is doing (`types::Status`). -/
structure Status : Type where
  volume : Nat
  «repeat» : Bool
  random : Bool
  single : Bool
  consume : Bool
  playlist : Nat
  playlist_length : Nat
  state : State
  song : Nat
  song_id : Nat
  next_song : Nat
  next_song_id : Nat
  elapsed : Duration
  duration : Option Duration
  bitrate : Nat
  crossfade : Nat
  mix_ramp_db : F32
  audio : Nat × Nat × Nat
  updating_db : Option Nat
  error : Option (List Nat)
deriving DecidableEq

/-- Helper struct to build a status from responses (`types::MaybeStatus`). -/
structure MaybeStatus : Type where
  volume : Option Nat
  «repeat» : Option Bool
  random : Option Bool
  single : Option Bool
  consume : Option Bool
  playlist : Option Nat
  playlist_length : Option Nat
  state : Option State
  song : Option Nat
  song_id : Option Nat
  next_song : Option Nat
  next_song_id : Option Nat
  elapsed : Option Duration
  duration : Option Duration
  bitrate : Option Nat
  crossfade : Option Nat
  mix_ramp_db : Option F32
  audio : Option (Nat × Nat × Nat)
  updating_db : Option Nat
  error : Option (List Nat)
deriving DecidableEq

/-- The `Default` instance of `MaybeStatus`: every field unset. -/
def MaybeStatus.default : MaybeStatus :=
  { volume := none, «repeat» := none, random := none, single := none,
    consume := none, playlist := none, playlist_length := none, state := none,
    song := none, song_id := none, next_song := none, next_song_id := none,
    elapsed := none, duration := none, bitrate := none, crossfade := none,
    mix_ramp_db := none, audio := none, updating_db := none, error := none }

/-- Embedding of `MaybeStatus::try_into`: each required field is unwrapped
with `try_opt!` (an early `None` return); `duration`, `updating_db` and
`error` are carried over as they are. -/
def MaybeStatus.try_into (m : MaybeStatus) : Option Status :=
  match m.volume with
  | none => none
  | some volume =>
  match m.repeat with
  | none => none
  | some rpt =>
  match m.random with
  | none => none
  | some random =>
  match m.single with
  | none => none
  | some single =>
  match m.consume with
  | none => none
  | some consume =>
  match m.playlist with
  | none => none
  | some playlist =>
  match m.playlist_length with
  | none => none
  | some playlist_length =>
  match m.state with
  | none => none
  | some state =>
  match m.song with
  | none => none
  | some song =>
  match m.song_id with
  | none => none
  | some song_id =>
  match m.next_song with
  | none => none
  | some next_song =>
  match m.next_song_id with
  | none => none
  | some next_song_id =>
  match m.elapsed with
  | none => none
  | some elapsed =>
  match m.bitrate with
  | none => none
  | some bitrate =>
  match m.crossfade with
  | none => none
  | some crossfade =>
  match m.mix_ramp_db with
  | none => none
  | some mix_ramp_db =>
  match m.audio with
  | none => none
  | some audio =>
  some { volume := volume, «repeat» := rpt, random := random, single := single,
         consume := consume, playlist := playlist, playlist_length := playlist_length,
         state := state, song := song, song_id := song_id, next_song := next_song,
         next_song_id := next_song_id, elapsed := elapsed, duration := m.duration,
         bitrate := bitrate, crossfade := crossfade, mix_ramp_db := mix_ramp_db,
         audio := audio, updating_db := m.updating_db, error := m.error }

/-- Stats about the database (`types::Stats`); the last-update timestamp is
kept as the unix seconds handed to `UTC.timestamp`. -/
structure Stats : Type where
  artists : Nat
  albums : Nat
  songs : Nat
  uptime : Duration
  db_playtime : Duration
  db_update : Int
  playtime : Duration
deriving DecidableEq

/-- Helper struct to build stats from responses (`types::MaybeStats`). -/
structure MaybeStats : Type where
  artists : Option Nat
  albums : Option Nat
  songs : Option Nat
  uptime : Option Duration
  db_playtime : Option Duration
  db_update : Option Int
  playtime : Option Duration
deriving DecidableEq

/-- The `Default` instance of `MaybeStats`. -/
def MaybeStats.default : MaybeStats :=
  { artists := none, albums := none, songs := none, uptime := none,
    db_playtime := none, db_update := none, playtime := none }

/-- Embedding of `MaybeStats::try_into`. -/
def MaybeStats.try_into (m : MaybeStats) : Option Stats :=
  match m.artists with
  | none => none
  | some artists =>
  match m.albums with
  | none => none
  | some albums =>
  match m.songs with
  | none => none
  | some songs =>
  match m.uptime with
  | none => none
  | some uptime =>
  match m.db_playtime with
  | none => none
  | some db_playtime =>
  match m.db_update with
  | none => none
  | some db_update =>
  match m.playtime with
  | none => none
  | some playtime =>
  some { artists := artists, albums := albums, songs := songs, uptime := uptime,
         db_playtime := db_playtime, db_update := db_update, playtime := playtime }

/-- Index parser used inside `parse_error`: utf8-decode then `parse::<usize>`,
written as the nested matches of the source closure. -/
def parseIndexOpt (raw : List Nat) : Option Nat :=
  if utf8Valid raw then parseRustUInt 18446744073709551616 raw else none

/-- Fallible utf8 decoding as used with `map_res!(.., str::from_utf8)`:
decoded strings are modelled by their byte lists. -/
def fromUtf8Res (bytes : List Nat) : RustRes (List Nat) :=
  if utf8Valid bytes then .ok bytes else .err

/-- Embedding of `protocol::parse_error`: the line
`ACK [<code>@<index>] <name-in-braces> <message>` followed by a line ending.
The numeric code goes through `CmdErrorType.from_code` under `map_opt!`. -/
def parse_error (i : List Nat) : PResult CmdError :=
  pBind (pTag [65, 67, 75, 32, 91] i) fun i _ =>
  pBind (pMapOpt pDigit CmdErrorType.from_code i) fun i code =>
  pBind (pTag [64] i) fun i _ =>
  pBind (pMapOpt pDigit parseIndexOpt i) fun i index =>
  pBind (pTag [93, 32, 123] i) fun i _ =>
  pBind (pMapRes (pIsNot [125, 13, 10]) fromUtf8Res i) fun i name =>
  pBind (pTag [125, 32] i) fun i _ =>
  pBind (pMapRes pNotLineEnding fromUtf8Res i) fun i message =>
  pBind (pLineEnding i) fun i _ =>
  .done i { error_type := code, command_no := index,
            command_name := name, message_text := message }

/-- Byte string of the field name volume. -/
def volumeB : List Nat := [118, 111, 108, 117, 109, 101]

/-- Byte string of the field name repeat. -/
def repeatB : List Nat := [114, 101, 112, 101, 97, 116]

/-- Byte string of the field name random. -/
def randomB : List Nat := [114, 97, 110, 100, 111, 109]

/-- Byte string of the field name single. -/
def singleB : List Nat := [115, 105, 110, 103, 108, 101]

/-- Byte string of the field name consume. -/
def consumeB : List Nat := [99, 111, 110, 115, 117, 109, 101]

/-- Byte string of the field name playlist. -/
def playlistB : List Nat := [112, 108, 97, 121, 108, 105, 115, 116]

/-- Byte string of the field name playlistlength. -/
def playlistlengthB : List Nat := [112, 108, 97, 121, 108, 105, 115, 116, 108, 101, 110, 103, 116, 104]

/-- Byte string of the field name mixrampdb. -/
def mixrampdbB : List Nat := [109, 105, 120, 114, 97, 109, 112, 100, 98]

/-- Byte string of the field name state. -/
def stateB : List Nat := [115, 116, 97, 116, 101]

/-- Byte string of the field name xfade. -/
def xfadeB : List Nat := [120, 102, 97, 100, 101]

/-- Byte string of the field name song. -/
def songB : List Nat := [115, 111, 110, 103]

/-- Byte string of the field name songid. -/
def songidB : List Nat := [115, 111, 110, 103, 105, 100]

/-- Byte string of the field name time. -/
def timeB : List Nat := [116, 105, 109, 101]

/-- Byte string of the field name elapsed. -/
def elapsedB : List Nat := [101, 108, 97, 112, 115, 101, 100]

/-- Byte string of the field name bitrate. -/
def bitrateB : List Nat := [98, 105, 116, 114, 97, 116, 101]

/-- Byte string of the field name duration. -/
def durationB : List Nat := [100, 117, 114, 97, 116, 105, 111, 110]

/-- Byte string of the field name audio. -/
def audioB : List Nat := [97, 117, 100, 105, 111]

/-- Byte string of the field name nextsong. -/
def nextsongB : List Nat := [110, 101, 120, 116, 115, 111, 110, 103]

/-- Byte string of the field name nextsongid. -/
def nextsongidB : List Nat := [110, 101, 120, 116, 115, 111, 110, 103, 105, 100]

/-- Byte string of the field name artists. -/
def artistsB : List Nat := [97, 114, 116, 105, 115, 116, 115]

/-- Byte string of the field name albums. -/
def albumsB : List Nat := [97, 108, 98, 117, 109, 115]

/-- Byte string of the field name songs. -/
def songsB : List Nat := [115, 111, 110, 103, 115]

/-- Byte string of the field name uptime. -/
def uptimeB : List Nat := [117, 112, 116, 105, 109, 101]

/-- Byte string of the field name db_playtime. -/
def db_playtimeB : List Nat := [100, 98, 95, 112, 108, 97, 121, 116, 105, 109, 101]

/-- Byte string of the field name db_update. -/
def db_updateB : List Nat := [100, 98, 95, 117, 112, 100, 97, 116, 101]

/-- Byte string of the field name playtime. -/
def playtimeB : List Nat := [112, 108, 97, 121, 116, 105, 109, 101]

/-- Embedding of the `parse_status_line!` macro: the field name, a colon and
space, the value bytes up to the line ending, and the newline. -/
def parse_status_line (name : List Nat) (i : List Nat) : PResult (List Nat) :=
  pBind (pTag name i) fun i _ =>
  pBind (pTag [58, 32] i) fun i _ =>
  pBind (pNotLineEnding i) fun i out =>
  pBind (pTag [10] i) fun i _ =>
  .done i out

/-- Embedding of `parse_status_state`: the literal state words. -/
def parse_status_state (i : List Nat) : PResult State :=
  match pTag [112, 108, 97, 121] i with
  | .done r _ => .done r .play
  | .incomplete => .incomplete
  | .panicked => .panicked
  | .error =>
    match pTag [112, 97, 117, 115, 101] i with
    | .done r _ => .done r .pause
    | .incomplete => .incomplete
    | .panicked => .panicked
    | .error =>
      match pTag [115, 116, 111, 112] i with
      | .done r _ => .done r .stop
      | .incomplete => .incomplete
      | .panicked => .panicked
      | .error => .error

/-- Embedding of `parse_audio`: three colon-separated decimal numbers. -/
def parse_audio (i : List Nat) : PResult (Nat × Nat × Nat) :=
  pBind (pMapRes pDigit parseBytesU32 i) fun i sample_rate =>
  pBind (pTag [58] i) fun i _ =>
  pBind (pMapRes pDigit parseBytesU32 i) fun i bit_depth =>
  pBind (pTag [58] i) fun i _ =>
  pBind (pMapRes pDigit parseBytesU32 i) fun i channels =>
  .done i (sample_rate, bit_depth, channels)

/-- Embedding of `parse_time`: whole seconds, a dot, then a fractional digit
run scaled by its length into nanoseconds. The nanosecond arithmetic is
`u32` in the source; fractional runs of ten or more digits would overflow
there and are outside this model (every claim evaluates at most nine). -/
def parse_time (i : List Nat) : PResult Duration :=
  pBind (pMapRes pDigit parseBytesU64 i) fun i secs =>
  pBind (pTag [46] i) fun i _ =>
  pBind (pMapRes pDigit
      (fun ds => RustRes.map (fun val => val * (1000000000 / 10 ^ ds.length))
        (parseBytesU32 ds)) i) fun i nanos =>
  .done i (Duration.new secs nanos)

/-- Embedding of `parse_single_status_response`: the `alt!` over the
nineteen recognized status field lines, each alternative updating one field
of the accumulator (the `time` line is recognized and discarded). -/
def parse_single_status_response (i : List Nat) (st : MaybeStatus) : PResult MaybeStatus :=
  altB (pMapV (pMapRes (parse_status_line volumeB) parseBytesU8)
      (fun o => { st with volume := some o }) i) fun _ =>
  altB (pMapV (pFlatMap (parse_status_line repeatB) parse_num_bool)
      (fun o => { st with «repeat» := some o }) i) fun _ =>
  altB (pMapV (pFlatMap (parse_status_line randomB) parse_num_bool)
      (fun o => { st with random := some o }) i) fun _ =>
  altB (pMapV (pFlatMap (parse_status_line singleB) parse_num_bool)
      (fun o => { st with single := some o }) i) fun _ =>
  altB (pMapV (pFlatMap (parse_status_line consumeB) parse_num_bool)
      (fun o => { st with consume := some o }) i) fun _ =>
  altB (pMapV (pMapRes (parse_status_line playlistB) parseBytesU32)
      (fun o => { st with playlist := some o }) i) fun _ =>
  altB (pMapV (pMapRes (parse_status_line playlistlengthB) parseBytesU32)
      (fun o => { st with playlist_length := some o }) i) fun _ =>
  altB (pMapV (pMapRes (parse_status_line mixrampdbB) parseBytesF32)
      (fun o => { st with mix_ramp_db := some o }) i) fun _ =>
  altB (pMapV (pFlatMap (parse_status_line stateB) parse_status_state)
      (fun o => { st with state := some o }) i) fun _ =>
  altB (pMapV (pMapRes (parse_status_line xfadeB) parseBytesU32)
      (fun o => { st with crossfade := some o }) i) fun _ =>
  altB (pMapV (pMapRes (parse_status_line songB) parseBytesU32)
      (fun o => { st with song := some o }) i) fun _ =>
  altB (pMapV (pMapRes (parse_status_line songidB) parseBytesU32)
      (fun o => { st with song_id := some o }) i) fun _ =>
  altB (pMapV (parse_status_line timeB) (fun _ => st) i) fun _ =>
  altB (pMapV (pFlatMap (parse_status_line elapsedB) parse_time)
      (fun o => { st with elapsed := some o }) i) fun _ =>
  altB (pMapV (pMapRes (parse_status_line bitrateB) parseBytesU32)
      (fun o => { st with bitrate := some o }) i) fun _ =>
  altB (pMapV (pFlatMap (parse_status_line durationB) parse_time)
      (fun o => { st with duration := some o }) i) fun _ =>
  altB (pMapV (pFlatMap (parse_status_line audioB) parse_audio)
      (fun o => { st with audio := some o }) i) fun _ =>
  altB (pMapV (pMapRes (parse_status_line nextsongB) parseBytesU32)
      (fun o => { st with next_song := some o }) i) fun _ =>
  altB (pMapV (pMapRes (parse_status_line nextsongidB) parseBytesU32)
      (fun o => { st with next_song_id := some o }) i) fun _ =>
  .error

/-- Result of the field-accumulation loop inside `parse_status_response`
and `parse_stats_response`. -/
inductive LoopRes (σ : Type) : Type where
  | finished (rest : List Nat) (st : σ)
  | incomplete
  | panicked
  | fuelOut
deriving DecidableEq

/-- The `loop` of `parse_status_response`, fuelled. Each successful
iteration of `parse_single_status_response` consumes at least one byte, so
fuel `input length + 1` never runs out; `fuelOut` is an unreachable marker. -/
def statusLoop (fuel : Nat) : List Nat → MaybeStatus → LoopRes MaybeStatus :=
  Nat.rec (motive := fun _ => List Nat → MaybeStatus → LoopRes MaybeStatus)
    (fun _ _ => .fuelOut)
    (fun _ ih i st =>
      match parse_single_status_response i st with
      | .done i2 st2 => ih i2 st2
      | .error => .finished i st
      | .incomplete => .incomplete
      | .panicked => .panicked)
    fuel

/-- The decode result of one command (`command::CommandResponse`). -/
inductive CommandResponse : Type where
  | blank
  | tmp
  | status (s : Status)
  | stats (s : Stats)
deriving DecidableEq

/-- Embedding of `parse_status_response`: accumulate recognized field lines
until one fails to match, then finalize the accumulator; a finalization
failure is a decode error at that position. -/
def parse_status_response (i : List Nat) : PResult CommandResponse :=
  match statusLoop (byteLen i + 1) i MaybeStatus.default with
  | .finished rest st =>
    match st.try_into with
    | some s => .done rest (.status s)
    | none => .error
  | .incomplete => .incomplete
  | .panicked => .panicked
  | .fuelOut => .error

/-- Embedding of `parse_single_stats_response`: the `alt!` over the seven
recognized stats field lines. -/
def parse_single_stats_response (i : List Nat) (st : MaybeStats) : PResult MaybeStats :=
  altB (pMapV (pMapRes (parse_status_line artistsB) parseBytesU64)
      (fun o => { st with artists := some o }) i) fun _ =>
  altB (pMapV (pMapRes (parse_status_line albumsB) parseBytesU64)
      (fun o => { st with albums := some o }) i) fun _ =>
  altB (pMapV (pMapRes (parse_status_line songsB) parseBytesU64)
      (fun o => { st with songs := some o }) i) fun _ =>
  altB (pMapV (pMapRes (parse_status_line uptimeB) parseBytesU64)
      (fun o => { st with uptime := some (Duration.from_secs o) }) i) fun _ =>
  altB (pMapV (pMapRes (parse_status_line db_playtimeB) parseBytesU64)
      (fun o => { st with db_playtime := some (Duration.from_secs o) }) i) fun _ =>
  altB (pMapV (pMapRes (parse_status_line db_updateB) parseBytesI64)
      (fun o => { st with db_update := some o }) i) fun _ =>
  altB (pMapV (pMapRes (parse_status_line playtimeB) parseBytesU64)
      (fun o => { st with playtime := some (Duration.from_secs o) }) i) fun _ =>
  .error

/-- The `loop` of `parse_stats_response`, fuelled like `statusLoop`. -/
def statsLoop (fuel : Nat) : List Nat → MaybeStats → LoopRes MaybeStats :=
  Nat.rec (motive := fun _ => List Nat → MaybeStats → LoopRes MaybeStats)
    (fun _ _ => .fuelOut)
    (fun _ ih i st =>
      match parse_single_stats_response i st with
      | .done i2 st2 => ih i2 st2
      | .error => .finished i st
      | .incomplete => .incomplete
      | .panicked => .panicked)
    fuel

/-- Embedding of `parse_stats_response`. -/
def parse_stats_response (i : List Nat) : PResult CommandResponse :=
  match statsLoop (byteLen i + 1) i MaybeStats.default with
  | .finished rest st =>
    match st.try_into with
    | some s => .done rest (.stats s)
    | none => .error
  | .incomplete => .incomplete
  | .panicked => .panicked
  | .fuelOut => .error

/-- All commands that can be sent to the server (`command::Command`).
Rust `String` payloads are modelled as byte lists. -/
inductive Command : Type where
  | clearError
  | currentSong
  | idle (subs : List SubSystem)
  | status
  | stats
  | consume (flag : Bool)
  | crossfade (secs : Nat)
  | mixRampDB (dbs : Int)
  | mixRampDelay (amt : Option Nat)
  | random (flag : Bool)
  | «repeat» (flag : Bool)
  | volume (vol : Nat)
  | single (flag : Bool)
  | replayGainMode (mode : ReplayGainMode)
  | replayGainStatus
  | next
  | pause (flag : Bool)
  | play (pos : Nat)
  | playId (id : List Nat)
  | previous
  | seek (song_position : Nat) (time : Duration)
  | seekId (song_id : List Nat) (time : Duration)
  | seekCurrent (pos : Duration)
  | stop
  | add (uri : List Nat)
  | addId (uri : List Nat) (position : Option Nat)
  | clear
  | delete (s : SingleOrRange)
  | deleteId (id : List Nat)
  | move (frm : SingleOrRange) (dest : Nat)
  | moveId (frm : List Nat) (dest : Nat)
  | playlistFind (tag : List Nat) (needle : List Nat)
  | playlistId (song : Option Nat)
  | playlistInfo (s : Option SingleOrRange)
  | playlistSearch (tag : TagType) (needle : List Nat)
  | playlistChanges (version : List Nat) (range : Option Range)
  | playlistChangesPositionId (version : List Nat) (range : Option Range)
  | priority (priority : Nat) (songs : List SingleOrRange)
  | priorityId (priority : Nat) (songs : List (List Nat))
  | rangeId (id : List Nat) (range : Range)
  | shuffle (range : Range)
  | swap (pos1 pos2 : Nat)
  | swapId (id1 id2 : List Nat)
  | addTagId (id : List Nat) (tag : TagType × List Nat)
  | clearTagId (id : List Nat) (tag : TagType)
  | listPlaylist (name : List Nat)
  | listPlaylistInfo (name : List Nat)
  | listPlaylists
  | load (name : List Nat) (range : Option Range)
  | playlistAdd (playlist : List Nat) (song : List Nat)
  | playlistClear (name : List Nat)
  | playlistDelete (playlist : List Nat) (song : Nat)
  | playlistMove (playlist : List Nat) (frm : Nat) (dest : Nat)
  | rename (old_name new_name : List Nat)
  | remove (name : List Nat)
  | save (name : List Nat)
  | count (tag : TagType × List Nat) (group : Option TagType)
  | groupCount (tag : TagType)

/-- Embedding of `<Command as ParseResponse>::parse_response`. Blank-result
commands consume nothing. The `Seek`, `SeekId` and `SeekCurrent` arms of
the source use identifier patterns (the names `u32`, `String`, `Duration`
bind the fields, they do not test them), so those arms match every value of
the variant and return `Blank`; `Idle`, `ReplayGainStatus` and the `_`
fallback run `unimplemented!()`, which panics. -/
def Command.parse_response : Command → List Nat → PResult CommandResponse
  | .clearError, i => .done i .blank
  | .currentSong, i => .done i .blank
  | .idle _, _ => .panicked
  | .status, i => parse_status_response i
  | .stats, i => parse_stats_response i
  | .consume _, i => .done i .blank
  | .crossfade _, i => .done i .blank
  | .mixRampDB _, i => .done i .blank
  | .mixRampDelay _, i => .done i .blank
  | .random _, i => .done i .blank
  | .«repeat» _, i => .done i .blank
  | .volume _, i => .done i .blank
  | .single _, i => .done i .blank
  | .replayGainMode _, i => .done i .blank
  | .replayGainStatus, _ => .panicked
  | .next, i => .done i .blank
  | .pause _, i => .done i .blank
  | .play _, i => .done i .blank
  | .playId _, i => .done i .blank
  | .previous, i => .done i .blank
  | .seek _ _, i => .done i .blank
  | .seekId _ _, i => .done i .blank
  | .seekCurrent _, i => .done i .blank
  | .stop, i => .done i .blank
  | _, _ => .panicked

/-- An ordered sequence of commands (`command::CommandList`). -/
abbrev CommandList := List Command

/-- Embedding of `<CommandList as ParseResponse>::parse_response`: each
decoder of each contained command runs in order against the remaining buffer,
a `list_OK` line is required after the payload of each command, and a final
`OK` line closes the list; responses are collected in dispatch order. -/
def CommandList.parse_response : CommandList → List Nat → PResult (List CommandResponse)
  | [], i =>
    match parse_ok i with
    | .done rest _ => .done rest []
    | .error => .error
    | .incomplete => .incomplete
    | .panicked => .panicked
  | c :: cs, i =>
    match Command.parse_response c i with
    | .done i1 r =>
      (match parse_list_ok i1 with
       | .done i2 _ =>
         (match CommandList.parse_response cs i2 with
          | .done i3 rs => .done i3 (r :: rs)
          | .error => .error
          | .incomplete => .incomplete
          | .panicked => .panicked)
       | .error => .error
       | .incomplete => .incomplete
       | .panicked => .panicked)
    | .error => .error
    | .incomplete => .incomplete
    | .panicked => .panicked

/-- One `read` call observed by `Buffer::fetch`: a chunk of bytes arriving
(an empty chunk is an end-of-stream read of zero bytes), or an io error.
An exhausted event list behaves as end of stream: every further read
returns zero bytes. Capacity bookkeeping of the growable vector only
affects chunk granularity and is absorbed into the chunk list. -/
inductive ReadEv : Type where
  | chunk (bytes : List Nat)
  | ioErr
deriving DecidableEq

/-- Outcome of `Buffer::parse`: a decoded value, a decode error, or a
panic. The surrounding `Option` is fuel: `none` means the loop was still
running when the fuel ran out, so every fuel yielding `none` exhibits
divergence. -/
inductive BufOut (α : Type) : Type where
  | ok (val : α)
  | parseErr
  | panicked
deriving DecidableEq

/-- Embedding of `Buffer::parse`: loop; fetch once from the source (an io
error hits the `unwrap` and panics), utf8-decode the whole buffer for the
debug print (another `unwrap`), run the parser on the buffer, return on
`Done` or `Error`, and loop again on `Incomplete`. A zero-byte read leaves
the buffer unchanged and the loop retries with the same bytes. -/
def bufferParse {α : Type} (p : List Nat → PResult α) (fuel : Nat) :
    List Nat → List ReadEv → Option (BufOut α) :=
  Nat.rec (motive := fun _ => List Nat → List ReadEv → Option (BufOut α))
    (fun _ _ => none)
    (fun _ ih buf evs =>
      let fetched : Option (List Nat × List ReadEv) :=
        match evs with
        | .ioErr :: _ => none
        | .chunk bs :: evs2 => some (buf ++ bs, evs2)
        | [] => some (buf, [])
      match fetched with
      | none => some .panicked
      | some (buf2, evs2) =>
        if utf8Valid buf2 then
          match p buf2 with
          | .done _ o => some (.ok o)
          | .error => some .parseErr
          | .incomplete => ih buf2 evs2
          | .panicked => some .panicked
        else some .panicked)
    fuel

/-- Embedding of `Client::run_commands`. The io result of
`commands.dispatch(..)` is dropped on the floor by the source, so the
outcome of the write is a parameter that the body never examines; after a
successful decode the source prints the responses and returns
`Ok(Vec::new())`, the empty vector. -/
def run_commands (cmds : CommandList) (dispatchResult : Except Unit Unit)
    (evs : List ReadEv) (fuel : Nat) : Option (BufOut (List CommandResponse)) :=
  match bufferParse (fun i => CommandList.parse_response cmds i) fuel [] evs with
  | some (.ok _) => some (.ok [])
  | some .parseErr => some .parseErr
  | some .panicked => some .panicked
  | none => none

/-- Scenario A status field lines: volume 80, repeat 1, random 1, single 0,
consume 0, playlist 4, playlistlength 1, mixrampdb 0.000000, state play,
xfade 1000000000, song 0, songid 9, time 80:302, elapsed 80.074,
bitrate 320, audio 44100:24:2, nextsong 0, nextsongid 9, each line
newline-terminated. -/
def scenarioALines : List Nat := [118, 111, 108, 117, 109, 101, 58, 32, 56, 48, 10, 114, 101, 112, 101, 97, 116, 58, 32, 49, 10, 114, 97, 110, 100, 111, 109, 58, 32, 49, 10, 115, 105, 110, 103, 108, 101, 58, 32, 48, 10, 99, 111, 110, 115, 117, 109, 101, 58, 32, 48, 10, 112, 108, 97, 121, 108, 105, 115, 116, 58, 32, 52, 10, 112, 108, 97, 121, 108, 105, 115, 116, 108, 101, 110, 103, 116, 104, 58, 32, 49, 10, 109, 105, 120, 114, 97, 109, 112, 100, 98, 58, 32, 48, 46, 48, 48, 48, 48, 48, 48, 10, 115, 116, 97, 116, 101, 58, 32, 112, 108, 97, 121, 10, 120, 102, 97, 100, 101, 58, 32, 49, 48, 48, 48, 48, 48, 48, 48, 48, 48, 10, 115, 111, 110, 103, 58, 32, 48, 10, 115, 111, 110, 103, 105, 100, 58, 32, 57, 10, 116, 105, 109, 101, 58, 32, 56, 48, 58, 51, 48, 50, 10, 101, 108, 97, 112, 115, 101, 100, 58, 32, 56, 48, 46, 48, 55, 52, 10, 98, 105, 116, 114, 97, 116, 101, 58, 32, 51, 50, 48, 10, 97, 117, 100, 105, 111, 58, 32, 52, 52, 49, 48, 48, 58, 50, 52, 58, 50, 10, 110, 101, 120, 116, 115, 111, 110, 103, 58, 32, 48, 10, 110, 101, 120, 116, 115, 111, 110, 103, 105, 100, 58, 32, 57, 10]

/-- Scenario A field lines with the legacy time line removed. -/
def scenarioALinesNoTime : List Nat := [118, 111, 108, 117, 109, 101, 58, 32, 56, 48, 10, 114, 101, 112, 101, 97, 116, 58, 32, 49, 10, 114, 97, 110, 100, 111, 109, 58, 32, 49, 10, 115, 105, 110, 103, 108, 101, 58, 32, 48, 10, 99, 111, 110, 115, 117, 109, 101, 58, 32, 48, 10, 112, 108, 97, 121, 108, 105, 115, 116, 58, 32, 52, 10, 112, 108, 97, 121, 108, 105, 115, 116, 108, 101, 110, 103, 116, 104, 58, 32, 49, 10, 109, 105, 120, 114, 97, 109, 112, 100, 98, 58, 32, 48, 46, 48, 48, 48, 48, 48, 48, 10, 115, 116, 97, 116, 101, 58, 32, 112, 108, 97, 121, 10, 120, 102, 97, 100, 101, 58, 32, 49, 48, 48, 48, 48, 48, 48, 48, 48, 48, 10, 115, 111, 110, 103, 58, 32, 48, 10, 115, 111, 110, 103, 105, 100, 58, 32, 57, 10, 101, 108, 97, 112, 115, 101, 100, 58, 32, 56, 48, 46, 48, 55, 52, 10, 98, 105, 116, 114, 97, 116, 101, 58, 32, 51, 50, 48, 10, 97, 117, 100, 105, 111, 58, 32, 52, 52, 49, 48, 48, 58, 50, 52, 58, 50, 10, 110, 101, 120, 116, 115, 111, 110, 103, 58, 32, 48, 10, 110, 101, 120, 116, 115, 111, 110, 103, 105, 100, 58, 32, 57, 10]

/-- The Status value scenario A decodes to. -/
def scenarioAStatus : Status :=
  { volume := 80, «repeat» := true, random := true, single := false,
    consume := false, playlist := 4, playlist_length := 1, state := .play,
    song := 0, song_id := 9, next_song := 0, next_song_id := 9,
    elapsed := { secs := 80, nanos := 74000000 }, duration := none,
    bitrate := 320, crossfade := 1000000000, mix_ramp_db := .finite 0,
    audio := (44100, 24, 2), updating_db := none, error := none }

/-- Scenario C error line: ACK, code 50, command index 1, command name play,
message: song does not exist, then the song id 10240 in double quotes. -/
def scenarioCLine : List Nat := [65, 67, 75, 32, 91, 53, 48, 64, 49, 93, 32, 123, 112, 108, 97, 121, 125, 32, 115, 111, 110, 103, 32, 100, 111, 101, 115, 110, 39, 116, 32, 101, 120, 105, 115, 116, 58, 32, 34, 49, 48, 50, 52, 48, 34, 10]

/-- The command name bytes of scenario C. -/
def playB : List Nat := [112, 108, 97, 121]

/-- The message bytes of scenario C. -/
def scenarioCMsg : List Nat := [115, 111, 110, 103, 32, 100, 111, 101, 115, 110, 39, 116, 32, 101, 120, 105, 115, 116, 58, 32, 34, 49, 48, 50, 52, 48, 34]

/-- A single status field line: volume 80. -/
def volumeLineB : List Nat := [118, 111, 108, 117, 109, 101, 58, 32, 56, 48, 10]

/-- A single status field line: repeat 1. -/
def repeatLineB : List Nat := [114, 101, 112, 101, 97, 116, 58, 32, 49, 10]

/-- Matching a tag against itself followed by anything succeeds and leaves
exactly the remainder. -/
lemma pTag_append (t r : List Nat) : pTag t (t ++ r) = .done r () := by
  induction t with
  | nil => rfl
  | cons b ts ih => simp [pTag, ih]

/-- A tag parse succeeds exactly on inputs that start with the tag bytes. -/
lemma pTag_done_iff {t i r : List Nat} : pTag t i = .done r () ↔ i = t ++ r := by
  induction t generalizing i with
  | nil => simp [pTag, eq_comm]
  | cons b ts ih =>
    cases i with
    | nil => simp [pTag]
    | cons c cs =>
      by_cases hbc : b = c
      · subst hbc
        simp [pTag, ih]
      · simp [pTag, hbc, Ne.symm hbc]

/-- The framing predicate of a command-list response: the buffer starts with
the decoded payload of each command followed by a list_OK marker, in dispatch
order, and ends with a final OK line before the remainder; the collected
responses are the decode results of the commands in the same order. -/
def framedResponse : List Command → List Nat → List Nat → List CommandResponse → Prop
  | [], i, rest, resp => resp = [] ∧ i = okB ++ rest
  | c :: cs, i, rest, resp =>
    ∃ i1 r i2 rs, Command.parse_response c i = .done i1 r ∧
      i1 = listOkB ++ i2 ∧ framedResponse cs i2 rest rs ∧ resp = r :: rs

/-- A command-list decode succeeds exactly on framed buffers. -/
lemma clpr_done_iff (cmds : List Command) :
    ∀ i rest resp, CommandList.parse_response cmds i = .done rest resp ↔
      framedResponse cmds i rest resp := by
  induction cmds with
  | nil =>
    intro i rest resp
    constructor
    · intro h
      simp only [CommandList.parse_response] at h
      split at h
      next r u heq =>
        cases u
        simp only [PResult.done.injEq] at h
        obtain ⟨h1, h2⟩ := h
        subst h1
        exact ⟨h2.symm, pTag_done_iff.mp heq⟩
      next => simp at h
      next => simp at h
      next => simp at h
    · rintro ⟨hresp, hi⟩
      subst hresp
      subst hi
      simp only [CommandList.parse_response, parse_ok, pTag_append]
  | cons c cs ih =>
    intro i rest resp
    constructor
    · intro h
      simp only [CommandList.parse_response] at h
      split at h
      next i1 r heq =>
        split at h
        next i2 u heq2 =>
          cases u
          split at h
          next i3 rs heq3 =>
            simp only [PResult.done.injEq] at h
            obtain ⟨h1, h2⟩ := h
            exact ⟨i1, r, i2, rs, heq, pTag_done_iff.mp heq2,
              h1 ▸ (ih i2 i3 rs).mp heq3, h2.symm⟩
          next => simp at h
          next => simp at h
          next => simp at h
        next => simp at h
        next => simp at h
        next => simp at h
      next => simp at h
      next => simp at h
      next => simp at h
    · rintro ⟨i1, r, i2, rs, hc, hi1, hf, hresp⟩
      subst hresp
      subst hi1
      simp only [CommandList.parse_response, hc, parse_list_ok, pTag_append,
        (ih i2 rest rs).mpr hf]

/-- The response payload decoded by each command in the list is followed by
its list_OK marker; after the last command the final OK line closes the
list. If the decode of a command list returns Done, the framing held and
one response per command came back in dispatch order; conversely a framed
buffer always decodes. -/
lemma framed_length : ∀ (cmds : List Command) (i rest : List Nat)
    (resp : List CommandResponse),
    framedResponse cmds i rest resp → resp.length = cmds.length := by
  intro cmds
  induction cmds with
  | nil =>
    intro i rest resp h
    obtain ⟨h1, -⟩ := h
    simp [h1]
  | cons c cs ih =>
    intro i rest resp h
    obtain ⟨i1, r, i2, rs, -, -, hf, hresp⟩ := h
    subst hresp
    simp [ih i2 rest rs hf]

/-- A definite mismatch where a list_OK marker is required makes the whole
list decode an error. -/
lemma clpr_misplaced (c : Command) (cs : List Command) (i i1 : List Nat)
    (r : CommandResponse)
    (hc : Command.parse_response c i = .done i1 r)
    (hl : parse_list_ok i1 = .error) :
    CommandList.parse_response (c :: cs) i = .error := by
  simp only [CommandList.parse_response, hc, hl]

/-- C2: for every CommandList and input buffer, the decode succeeds exactly
when the buffer holds, in order, the decoded payload of each command followed by
a list_OK marker and then one final OK line; on success one CommandResponse
per command comes back in dispatch order, and a misplaced marker (a definite
mismatch where list_OK is required) is a decode error. -/
theorem commandList_parse_response_framing :
    ∀ (cmds : List Command) (i rest : List Nat) (resp : List CommandResponse),
      (CommandList.parse_response cmds i = .done rest resp ↔
        framedResponse cmds i rest resp) ∧
      (CommandList.parse_response cmds i = .done rest resp →
        resp.length = cmds.length) ∧
      (∀ c cs i1 r, cmds = c :: cs → Command.parse_response c i = .done i1 r →
        parse_list_ok i1 = .error → CommandList.parse_response cmds i = .error) := by
  intro cmds i rest resp
  refine ⟨clpr_done_iff cmds i rest resp, ?_, ?_⟩
  · intro h
    exact framed_length cmds i rest resp ((clpr_done_iff cmds i rest resp).mp h)
  · intro c cs i1 r hcc hc hl
    subst hcc
    exact clpr_misplaced c cs i i1 r hc hl

/-- Witness for C2 at a one-command list whose buffer is exactly a list_OK
marker followed by the final OK line. -/
theorem commandList_parse_response_framing_witness :
    CommandList.parse_response [Command.clearError] (listOkB ++ okB) =
      .done [] [CommandResponse.blank] ∧
    framedResponse [Command.clearError] (listOkB ++ okB) [] [CommandResponse.blank] := by
  have h : CommandList.parse_response [Command.clearError] (listOkB ++ okB) =
      .done [] [CommandResponse.blank] := by decide
  exact ⟨h, ((commandList_parse_response_framing [Command.clearError] (listOkB ++ okB)
    [] [CommandResponse.blank]).1).mp h⟩

/-- C6: finalizing a MaybeStatus yields a Status exactly when every
required field (all fields other than duration, updating_db and error) is
populated, and the three optional fields are carried over unchanged. -/
theorem maybeStatus_try_into_spec :
    ∀ ms : MaybeStatus,
      (ms.try_into.isSome ↔
        (ms.volume.isSome ∧ ms.repeat.isSome ∧ ms.random.isSome ∧ ms.single.isSome ∧
         ms.consume.isSome ∧ ms.playlist.isSome ∧ ms.playlist_length.isSome ∧
         ms.state.isSome ∧ ms.song.isSome ∧ ms.song_id.isSome ∧ ms.next_song.isSome ∧
         ms.next_song_id.isSome ∧ ms.elapsed.isSome ∧ ms.bitrate.isSome ∧
         ms.crossfade.isSome ∧ ms.mix_ramp_db.isSome ∧ ms.audio.isSome)) ∧
      (∀ s, ms.try_into = some s →
        s.duration = ms.duration ∧ s.updating_db = ms.updating_db ∧
        s.error = ms.error) := by
  intro ms
  obtain ⟨v, rp, rd, sg, cns, pl, pll, stt, so, sid, ns, nsid, el, du, br, cf, mrd, au, udb, er⟩ := ms
  cases v with
  | none => simp [MaybeStatus.try_into]
  | some v =>
  cases rp with
  | none => simp [MaybeStatus.try_into]
  | some rp =>
  cases rd with
  | none => simp [MaybeStatus.try_into]
  | some rd =>
  cases sg with
  | none => simp [MaybeStatus.try_into]
  | some sg =>
  cases cns with
  | none => simp [MaybeStatus.try_into]
  | some cns =>
  cases pl with
  | none => simp [MaybeStatus.try_into]
  | some pl =>
  cases pll with
  | none => simp [MaybeStatus.try_into]
  | some pll =>
  cases stt with
  | none => simp [MaybeStatus.try_into]
  | some stt =>
  cases so with
  | none => simp [MaybeStatus.try_into]
  | some so =>
  cases sid with
  | none => simp [MaybeStatus.try_into]
  | some sid =>
  cases ns with
  | none => simp [MaybeStatus.try_into]
  | some ns =>
  cases nsid with
  | none => simp [MaybeStatus.try_into]
  | some nsid =>
  cases el with
  | none => simp [MaybeStatus.try_into]
  | some el =>
  cases br with
  | none => simp [MaybeStatus.try_into]
  | some br =>
  cases cf with
  | none => simp [MaybeStatus.try_into]
  | some cf =>
  cases mrd with
  | none => simp [MaybeStatus.try_into]
  | some mrd =>
  cases au with
  | none => simp [MaybeStatus.try_into]
  | some au =>
  simp [MaybeStatus.try_into]

/-- Witness for C6: the scenario A accumulator has every required field
populated, finalizes, and carries over its three optional fields. -/
def scenarioAMaybe : MaybeStatus :=
  { volume := some 80, «repeat» := some true, random := some true, single := some false,
    consume := some false, playlist := some 4, playlist_length := some 1,
    state := some .play, song := some 0, song_id := some 9, next_song := some 0,
    next_song_id := some 9, elapsed := some { secs := 80, nanos := 74000000 },
    duration := none, bitrate := some 320, crossfade := some 1000000000,
    mix_ramp_db := some (.finite 0), audio := some (44100, 24, 2),
    updating_db := none, error := none }

/-- Witness for C6 at the scenario A accumulator. -/
theorem maybeStatus_try_into_witness :
    scenarioAStatus.duration = scenarioAMaybe.duration ∧
    scenarioAStatus.updating_db = scenarioAMaybe.updating_db ∧
    scenarioAStatus.error = scenarioAMaybe.error :=
  (maybeStatus_try_into_spec scenarioAMaybe).2 scenarioAStatus (by decide)

/-- Scanning a digit run stops exactly at the first non-digit. -/
lemma spanBytes_digits_append (ds rest : List Nat) (hds : allDigits ds = true)
    (hrest : ∀ b, rest.head? = some b → isDigitByte b = false) :
    spanBytes isDigitByte (ds ++ rest) = (ds, rest) := by
  induction ds with
  | nil =>
    cases rest with
    | nil => rfl
    | cons b bs =>
      have hb := hrest b rfl
      simp [spanBytes, hb]
  | cons d ds2 ih =>
    simp only [allDigits, Bool.and_eq_true] at hds
    obtain ⟨hd, hds2⟩ := hds
    simp [spanBytes, hd, ih hds2]

/-- The digit parser consumes a maximal nonempty digit run whole. -/
lemma pDigit_append (ds rest : List Nat) (hne : ds ≠ [])
    (hds : allDigits ds = true)
    (hrest : ∀ b, rest.head? = some b → isDigitByte b = false) :
    pDigit (ds ++ rest) = .done rest ds := by
  cases ds with
  | nil => exact absurd rfl hne
  | cons d ds2 =>
    have hds2 := hds
    simp only [allDigits, Bool.and_eq_true] at hds2
    obtain ⟨hd, -⟩ := hds2
    have hspan := spanBytes_digits_append (d :: ds2) rest hds hrest
    rw [List.cons_append] at hspan
    simp [pDigit, hd, hspan]

/-- C7: the scenario C error line decodes to the NoExist error for command
index 1 and command name play with the full message text; and every ACK
line whose maximal numeric code run is outside the closed CmdErrorType
table is a decode error. -/
theorem parse_error_spec :
    (parse_error scenarioCLine =
      .done [] ⟨CmdErrorType.noExist, 1, playB, scenarioCMsg⟩) ∧
    (∀ ds rest, ds ≠ [] → allDigits ds = true →
      (∀ b, rest.head? = some b → isDigitByte b = false) →
      CmdErrorType.from_code ds = none →
      parse_error ([65, 67, 75, 32, 91] ++ (ds ++ rest)) = .error) := by
  constructor
  · decide
  · intro ds rest hne hds hrest hcode
    simp only [parse_error, pBind, pMapOpt, pTag_append,
      pDigit_append ds rest hne hds hrest, hcode]

/-- Witness for C7 at the unassigned code 57. -/
theorem parse_error_spec_witness :
    parse_error ([65, 67, 75, 32, 91] ++ ([53, 55] ++ [64])) = .error :=
  parse_error_spec.2 [53, 55] [64] (by decide) (by decide)
    (by intro b hb; simp at hb; subst hb; decide) (by decide)

/-- The buffer loop with no fuel left. -/
lemma bufferParse_zero {α : Type} (p : List Nat → PResult α) (buf : List Nat)
    (evs : List ReadEv) : bufferParse p 0 buf evs = none := rfl

/-- One iteration of the buffer loop at end of stream: the read returns
zero bytes and the parser runs on the unchanged buffer. -/
lemma bufferParse_succ_eof {α : Type} (p : List Nat → PResult α) (n : Nat)
    (buf : List Nat) :
    bufferParse p (n + 1) buf [] =
      (if utf8Valid buf then
        match p buf with
        | .done _ o => some (.ok o)
        | .error => some .parseErr
        | .incomplete => bufferParse p n buf []
        | .panicked => some .panicked
      else some .panicked) := rfl

/-- One iteration of the buffer loop at a read error: the unwrap panics. -/
lemma bufferParse_succ_ioErr {α : Type} (p : List Nat → PResult α) (n : Nat)
    (buf : List Nat) (evs : List ReadEv) :
    bufferParse p (n + 1) buf (.ioErr :: evs) = some .panicked := rfl

/-- C4: at end of stream with a decode still pending, the read-and-decode
loop of the buffer never terminates: every read returns zero bytes, the
parser reports incomplete on the unchanged empty buffer, and the loop
retries forever (no amount of fuel produces a result). -/
theorem buffer_parse_eof_loops :
    ∀ (α : Type) (p : List Nat → PResult α) (fuel : Nat),
      p [] = .incomplete → bufferParse p fuel [] [] = none := by
  intro α p fuel hp
  induction fuel with
  | zero => rfl
  | succ n ih =>
    rw [bufferParse_succ_eof]
    simp [show utf8Valid [] = true from rfl, hp, ih]

/-- Witness for C4: the OK-line parser still needs input on an empty
buffer, and the loop yields no result at fuel 1000. -/
theorem buffer_parse_eof_loops_witness :
    bufferParse parse_ok 1000 [] [] = none :=
  buffer_parse_eof_loops Unit parse_ok 1000 (by decide)

/-- C5: transport failures are mishandled by run_commands: the io result of
the dispatch write is dropped, so the outcome is the same whatever the sink
reported; and a read error makes the fetch unwrap panic instead of
returning an error result. -/
theorem run_commands_transport_errors :
    (∀ (cmds : CommandList) (evs : List ReadEv) (fuel : Nat) (d d2 : Except Unit Unit),
      run_commands cmds d evs fuel = run_commands cmds d2 evs fuel) ∧
    (∀ (cmds : CommandList) (d : Except Unit Unit) (evs : List ReadEv) (fuel : Nat),
      run_commands cmds d (.ioErr :: evs) (fuel + 1) = some .panicked) := by
  constructor
  · intro cmds evs fuel d d2
    rfl
  · intro cmds d evs fuel
    simp [run_commands, bufferParse_succ_ioErr]

set_option maxRecDepth 100000 in
/-- C1: run_commands always hands the caller an empty vector on success
(the decoded responses are printed and discarded by the source), even when
the response decoder produced one response per dispatched command: on the
scenario A reply to a single Status command the decoder yields exactly one
Status response, yet run_commands returns the empty vector. -/
theorem run_commands_returns_empty :
    (∀ (cmds : CommandList) (d : Except Unit Unit) (evs : List ReadEv) (fuel : Nat)
       (out : List CommandResponse),
      run_commands cmds d evs fuel = some (.ok out) → out = []) ∧
    CommandList.parse_response [Command.status] (scenarioALines ++ (listOkB ++ okB)) =
      .done [] [CommandResponse.status scenarioAStatus] ∧
    run_commands [Command.status] (Except.ok ())
      [ReadEv.chunk (scenarioALines ++ (listOkB ++ okB))] 1 = some (.ok []) := by
  refine ⟨?_, by decide, by decide⟩
  intro cmds d evs fuel out h
  unfold run_commands at h
  split at h <;> simp_all

/-- Witness for C1 at the scenario A exchange. -/
theorem run_commands_returns_empty_witness :
    ([] : List CommandResponse) = [] :=
  run_commands_returns_empty.1 [Command.status] (Except.ok ())
    [ReadEv.chunk (scenarioALines ++ (listOkB ++ okB))] 1 []
    run_commands_returns_empty.2.2

set_option maxRecDepth 100000 in
/-- C3: the scenario A input (the eighteen field lines of the spec followed
by the closing OK line) decodes to exactly the Status of the spec, leaving
the OK line unconsumed; the legacy time line is consumed with no effect, as
removing it yields the identical Status. -/
theorem status_scenarioA_decodes :
    parse_status_response (scenarioALines ++ okB) = .done okB (.status scenarioAStatus) ∧
    parse_status_response (scenarioALinesNoTime ++ okB) =
      .done okB (.status scenarioAStatus) := by
  exact ⟨by decide, by decide⟩

/-- C8 counterexample: decoding SeekCurrent has a defined result on a
concrete buffer: it returns Blank and does not reach a panic. -/
theorem seekCurrent_parse_response_defined :
    Command.parse_response (Command.seekCurrent { secs := 10, nanos := 0 }) [] =
      .done [] CommandResponse.blank ∧
    Command.parse_response (Command.seekCurrent { secs := 10, nanos := 0 }) [] ≠
      .panicked := by
  exact ⟨rfl, by decide⟩

/-- C8 amended: only the Idle arm of the four named variants reaches the
unimplemented (panicking) branch for every buffer; the Seek, SeekId and
SeekCurrent arms bind their fields with identifier patterns and decode to
Blank without consuming any input. -/
theorem parse_response_seek_family :
    ∀ (i : List Nat) (subs : List SubSystem) (pos : Nat) (t : Duration)
      (sid : List Nat) (d : Duration),
      Command.parse_response (.idle subs) i = .panicked ∧
      Command.parse_response (.seek pos t) i = .done i .blank ∧
      Command.parse_response (.seekId sid t) i = .done i .blank ∧
      Command.parse_response (.seekCurrent d) i = .done i .blank :=
  fun i subs pos t sid d => ⟨rfl, rfl, rfl, rfl⟩

/-- C10: parse_bytes panics on every byte list that is not valid utf8, and
at the decode interface a Status response whose volume value is the single
byte 255 panics instead of returning a decode error. -/
theorem parse_bytes_panics_on_invalid_utf8 :
    (∀ (α : Type) (fromStr : List Nat → Option α) (bytes : List Nat),
      utf8Valid bytes = false → parse_bytes fromStr bytes = .panicked) ∧
    parse_status_response (volumeB ++ [58, 32, 255, 10]) = .panicked := by
  constructor
  · intro α f bytes h
    simp [parse_bytes, h]
  · decide

/-- Witness for C10 at the single byte 255. -/
theorem parse_bytes_panics_witness :
    parse_bytes (parseRustUInt 256) [255] = RustRes.panicked :=
  parse_bytes_panics_on_invalid_utf8.1 Nat (parseRustUInt 256) [255] (by decide)

/-- The status loop at zero fuel. -/
lemma statusLoop_zero (i : List Nat) (st : MaybeStatus) :
    statusLoop 0 i st = .fuelOut := rfl

/-- One unfolding of the status field-accumulation loop. -/
lemma statusLoop_succ (n : Nat) (i : List Nat) (st : MaybeStatus) :
    statusLoop (n + 1) i st =
      (match parse_single_status_response i st with
       | .done i2 st2 => statusLoop n i2 st2
       | .error => .finished i st
       | .incomplete => .incomplete
       | .panicked => .panicked) := rfl

/-- The recursor-based length agrees with the list length. -/
lemma byteLen_eq (l : List Nat) : byteLen l = l.length := by
  induction l with
  | nil => rfl
  | cons b bs ih =>
    show byteLen bs + 1 = bs.length + 1
    rw [ih]

/-- A concatenation of nonempty lines is at least as long as their count. -/
lemma flatten_len_ge : ∀ (ls : List (List Nat)), (∀ l ∈ ls, l ≠ []) →
    ls.length ≤ ls.flatten.length := by
  intro ls
  induction ls with
  | nil => intro _; simp
  | cons l ls ih =>
    intro h
    have hl : l ≠ [] := h l (List.mem_cons_self l ls)
    have h1 : 1 ≤ l.length := by
      cases l with
      | nil => exact absurd rfl hl
      | cons a as => simp
    have h2 := ih (fun x hx => h x (List.mem_cons_of_mem l hx))
    simp only [List.flatten_cons, List.length_append, List.length_cons]
    omega

/-- Peeling recognized field lines off the front of the buffer: each line is
consumed whole and applies its field effect, one loop iteration and one unit
of fuel per line. -/
lemma statusLoop_peel (eff : List Nat → MaybeStatus → MaybeStatus) :
    ∀ (ls : List (List Nat)) (term : List Nat) (st : MaybeStatus) (m : Nat),
      (∀ l ∈ ls, ∀ rest s,
        parse_single_status_response (l ++ rest) s = .done rest (eff l s)) →
      statusLoop (ls.length + m) (ls.flatten ++ term) st =
        statusLoop m term (ls.foldl (fun s l => eff l s) st) := by
  intro ls
  induction ls with
  | nil =>
    intro term st m heff
    simp
  | cons l ls ih =>
    intro term st m heff
    have h1 : (l :: ls).length + m = (ls.length + m) + 1 := by
      simp only [List.length_cons]
      omega
    rw [h1, List.flatten_cons, List.append_assoc, statusLoop_succ,
      heff l (List.mem_cons_self l ls) (ls.flatten ++ term) st]
    exact ih term (eff l st) m (fun x hx => heff x (List.mem_cons_of_mem l hx))

/-- C9: feeding a complete set of recognized field lines in any permuted
order (followed by the same terminating unrecognized line) through the
status decoder yields the identical decode result: each line is consumed
whole with a fixed field effect, the effects of distinct lines commute, and
the terminator stops the loop, so the finalized Status does not depend on
the order of the lines. -/
theorem status_accumulation_perm :
    ∀ (ls ls2 : List (List Nat)) (term : List Nat)
      (eff : List Nat → MaybeStatus → MaybeStatus),
      List.Perm ls ls2 →
      (∀ l ∈ ls, l ≠ []) →
      (∀ l ∈ ls, ∀ rest s,
        parse_single_status_response (l ++ rest) s = .done rest (eff l s)) →
      (∀ l1 ∈ ls, ∀ l2 ∈ ls, ∀ s, eff l1 (eff l2 s) = eff l2 (eff l1 s)) →
      (∀ s, parse_single_status_response term s = .error) →
      parse_status_response (ls.flatten ++ term) =
        parse_status_response (ls2.flatten ++ term) := by
  intro ls ls2 term eff hperm hne heff hcomm hterm
  have main : ∀ (xs : List (List Nat)), (∀ l ∈ xs, l ≠ []) →
      (∀ l ∈ xs, ∀ rest s,
        parse_single_status_response (l ++ rest) s = .done rest (eff l s)) →
      parse_status_response (xs.flatten ++ term) =
        (match (xs.foldl (fun s l => eff l s) MaybeStatus.default).try_into with
         | some s => .done term (.status s)
         | none => .error) := by
    intro xs hxne hxeff
    unfold parse_status_response
    have hlen : xs.length ≤ byteLen (xs.flatten ++ term) := by
      rw [byteLen_eq, List.length_append]
      have := flatten_len_ge xs hxne
      omega
    have hm : byteLen (xs.flatten ++ term) + 1 =
        xs.length + (byteLen (xs.flatten ++ term) + 1 - xs.length) := by omega
    rw [hm, statusLoop_peel eff xs term MaybeStatus.default _ hxeff]
    have hm2 : byteLen (xs.flatten ++ term) + 1 - xs.length =
        (byteLen (xs.flatten ++ term) - xs.length) + 1 := by omega
    rw [hm2, statusLoop_succ, hterm]
  have e1 := main ls hne heff
  have e2 := main ls2 (fun l hl => hne l (hperm.mem_iff.mpr hl))
    (fun l hl => heff l (hperm.mem_iff.mpr hl))
  rw [e1, e2,
    hperm.foldl_eq' (fun x hx y hy z => hcomm y hy x hx z) MaybeStatus.default]

/-- Field effect used by the C9 witness: the volume line sets the volume
field to 80, the repeat line sets the repeat flag. -/
def effW : List Nat → MaybeStatus → MaybeStatus
  | 118 :: _, st => { st with volume := some 80 }
  | 114 :: _, st => { st with «repeat» := some true }
  | _, st => st

/-- The volume witness line is consumed whole with its field effect. -/
lemma effW_volume (rest : List Nat) (st : MaybeStatus) :
    parse_single_status_response (volumeLineB ++ rest) st =
      .done rest (effW volumeLineB st) := rfl

/-- The repeat witness line is consumed whole with its field effect. -/
lemma effW_repeat (rest : List Nat) (st : MaybeStatus) :
    parse_single_status_response (repeatLineB ++ rest) st =
      .done rest (effW repeatLineB st) := rfl

/-- The OK line matches no status field and stops the loop. -/
lemma okB_terminates (st : MaybeStatus) :
    parse_single_status_response okB st = .error := rfl

/-- Witness for C9: swapping the volume and repeat lines in front of the
terminating OK line yields the identical decode result. -/
theorem status_accumulation_perm_witness :
    parse_status_response (([volumeLineB, repeatLineB] : List (List Nat)).flatten ++ okB) =
      parse_status_response (([repeatLineB, volumeLineB] : List (List Nat)).flatten ++ okB) :=
  status_accumulation_perm [volumeLineB, repeatLineB] [repeatLineB, volumeLineB] okB effW
    (List.Perm.swap repeatLineB volumeLineB [])
    (by intro l hl; simp at hl; rcases hl with rfl | rfl <;> decide)
    (by
      intro l hl rest s
      simp at hl
      rcases hl with rfl | rfl
      · exact effW_volume rest s
      · exact effW_repeat rest s)
    (by
      intro l1 h1 l2 h2 s
      simp at h1 h2
      rcases h1 with rfl | rfl <;> rcases h2 with rfl | rfl <;> rfl)
    okB_terminates

end Mpd
